import Mathlib

/-!
Shallow embedding of `aws/resource_aws_launch_configuration.go` from the
terraform-provider-aws repository, together with theorems settling the
frozen claims about it.

Conventions of the embedding:
* Go pointer fields (`*string`, `*bool`, `*int64`, pointers to structs)
  become `Option` fields; `nil` is `none`.
* Go `int`/`int64` become `Int` (no overflow is relevant anywhere here).
* Fallible Go functions returning `(T, error)` become `Except AwsErr T`
  or the richer `Res` type below, which also has an explicit branch for a
  Go runtime panic (nil dereference, failed type assertion, write through
  a nil slice element).
* Remote traffic is modelled by an oracle structure `AWSConn` whose
  fields give the responses of the remote endpoints, and every operation
  additionally returns the ordered list of remote calls it issued.
-/

namespace LaunchConfigurationResource

/-! ## Errors and results -/

/-- An AWS service error, carrying the error code and the error message. -/
structure AwsErr where
  code : String
  message : String
deriving DecidableEq, Repr

/-- Auxiliary substring search on character lists. -/
def charsContain (needle : List Char) : List Char → Bool
  | [] => needle.isEmpty
  | c :: rest => needle.isPrefixOf (c :: rest) || charsContain needle rest

/-- Does `needle` occur (contiguously) inside `hay`?  Mirrors Go
`strings.Contains`; in particular the empty needle always matches. -/
def strContains (hay needle : String) : Bool :=
  charsContain needle.toList hay.toList

/-- Modelled from the spec: the repository matches remote errors against
"error signatures" consisting of an error code and a message fragment
(helper `isAWSErr`, defined outside the file under verification): the
code must be equal and the message fragment must occur in the message. -/
def isAWSErr (e : AwsErr) (code message : String) : Bool :=
  e.code == code && strContains e.message message

/-! ## SDK request/response shapes (autoscaling service) -/

/-- `autoscaling.Ebs`: the EBS volume descriptor of a block device
mapping.  All fields are pointers in the SDK, hence `Option` here. -/
structure Ebs where
  deleteOnTermination : Option Bool
  snapshotId : Option String
  encrypted : Option Bool
  volumeSize : Option Int
  volumeType : Option String
  iops : Option Int
deriving DecidableEq, Repr

/-- `autoscaling.BlockDeviceMapping`. -/
structure BlockDeviceMapping where
  deviceName : Option String
  virtualName : Option String
  noDevice : Option Bool
  ebs : Option Ebs
deriving DecidableEq, Repr

/-- `autoscaling.LaunchConfiguration` as returned by the describe call;
only the fields the resource reads are modelled. -/
structure LaunchConfiguration where
  launchConfigurationName : Option String
  keyName : Option String
  imageId : Option String
  instanceType : Option String
  iamInstanceProfile : Option String
  ebsOptimized : Option Bool
  spotPrice : Option String
  -- `*autoscaling.InstanceMonitoring` with inner `Enabled *bool`;
  -- the outer `Option` is the struct pointer, the inner one `Enabled`.
  instanceMonitoring : Option (Option Bool)
  securityGroups : List (Option String)
  associatePublicIpAddress : Option Bool
  classicLinkVPCId : Option String
  classicLinkVPCSecurityGroups : List (Option String)
  blockDeviceMappings : List BlockDeviceMapping
deriving DecidableEq, Repr

/-- `autoscaling.CreateLaunchConfigurationInput`.  A `none` models a
field the code left unset (zero value), so never sent on the wire.
Slice elements of `BlockDeviceMappings` are pointers, hence
`Option BlockDeviceMapping`. -/
structure CreateLaunchConfigurationInput where
  launchConfigurationName : Option String
  imageId : Option String
  instanceType : Option String
  ebsOptimized : Option Bool
  userData : Option String
  instanceMonitoring : Option Bool
  iamInstanceProfile : Option String
  placementTenancy : Option String
  associatePublicIpAddress : Option Bool
  keyName : Option String
  spotPrice : Option String
  securityGroups : Option (List String)
  classicLinkVPCId : Option String
  classicLinkVPCSecurityGroups : Option (List String)
  blockDeviceMappings : Option (List (Option BlockDeviceMapping))
deriving DecidableEq, Repr

/-- One remote API call, as recorded in a trace. -/
inductive RemoteCall where
  | describeImages (amiId : String)
  | createLaunchConfiguration (input : CreateLaunchConfigurationInput)
  | describeLaunchConfigurations (name : String)
  | deleteLaunchConfiguration (name : String)
deriving DecidableEq, Repr

/-- Errors produced by the resource functions.  `fmt.Errorf` messages
are modelled structurally, one constructor per format string. -/
inductive LCError where
  /-- A bare error from the SDK, returned unwrapped. -/
  | aws (e : AwsErr)
  /-- fmt.Errorf: Root device (%s) declared as an ebs_block_device.
  Use root_block_device keyword. -/
  | rootDeviceDeclaredAsEbs (rootDeviceName : String)
  /-- fmt.Errorf: Expected to find a Root Device name for AMI (%s),
  but got none. -/
  | noRootDeviceName (amiId : String)
  /-- fmt.Errorf: Unable to find launch configuration: %#v. -/
  | unableToFindLaunchConfiguration (returned : List LaunchConfiguration)
  /-- fmt.Errorf: Error creating launch configuration: %s. -/
  | creatingLaunchConfiguration (inner : LCError)
  /-- fmt.Errorf: Error retrieving launch configuration: %s. -/
  | retrievingLaunchConfiguration (inner : AwsErr)
  /-- `resource.Retry` exhausted its bounded window while the callback
  kept returning a retryable error; the last such error is kept. -/
  | retryTimeout (last : LCError)
deriving DecidableEq, Repr

/-- Result of running a piece of Go code: a value, an error returned to
the caller, or a runtime panic. -/
inductive Res (α : Type) where
  | ok (a : α)
  | err (e : LCError)
  | panicked (msg : String)
deriving DecidableEq, Repr

/-- Panic message for a write through a nil pointer / nil slice element
or a nil pointer dereference. -/
def nilDereferenceMsg : String :=
  "runtime error: invalid memory address or nil pointer dereference"

/-- Panic message for a failed single-value type assertion from
`*schema.Set` to a Go slice. -/
def setToListAssertionMsg : String :=
  "interface conversion: interface is *schema.Set, not []interface l"

/-! ## The remote endpoints (oracle) -/

/-- Responses of the remote AWS endpoints.  The create and describe
endpoints take the attempt index as first argument so that retried calls
can observe different responses (eventual consistency). -/
structure AWSConn where
  /-- Root-device name of an AMI, as recovered by `fetchRootDeviceName`
  from a DescribeImages response: an error, or `none` when the image has
  no root-device name, or the name. -/
  rootDeviceName : String → Except AwsErr (Option String)
  createLaunchConfiguration : Nat → CreateLaunchConfigurationInput → Except AwsErr Unit
  describeLaunchConfigurations : Nat → String → Except AwsErr (List LaunchConfiguration)
  deleteLaunchConfiguration : String → Except AwsErr Unit

/-- Modelled from the spec: `fetchRootDeviceName` (defined outside the
file under verification) looks up the image metadata remotely — "the
image's registered root-device name, which must be fetched from the
image metadata — an external lookup, not stored locally".  It issues one
DescribeImages call and yields an error, the name, or `nil` when the
image declares no root device. -/
def fetchRootDeviceName (amiId : String) (conn : AWSConn) :
    Except AwsErr (Option String) × List RemoteCall :=
  (conn.rootDeviceName amiId, [RemoteCall.describeImages amiId])

/-! ## Configuration-side values

A set/list element handed over by the terraform framework is a
`map[string]interface{}` containing every key of the element schema,
unset keys holding the Go zero value.  Each element kind is therefore a
structure of non-optional fields. -/

/-- An element of the consolidated `block_device_mapping` set's nested
`ebs` list. -/
structure EbsConfig where
  delete_on_termination : Bool
  iops : Int
  snapshot_id : String
  volume_size : Int
  volume_type : String
  encrypted : Bool
deriving DecidableEq, Repr

/-- An element of the consolidated `block_device_mapping` set. -/
structure BdmMappingConfig where
  device_name : String
  virtual_name : String
  no_device : Bool
  is_root_device : Bool
  ebs : List (Option EbsConfig)
deriving DecidableEq, Repr

/-- An element of the deprecated `ebs_block_device` set. -/
structure EbsBlockDeviceConfig where
  device_name : String
  delete_on_termination : Bool
  iops : Int
  snapshot_id : String
  volume_size : Int
  volume_type : String
  encrypted : Bool
deriving DecidableEq, Repr

/-- An element of the deprecated `ephemeral_block_device` set. -/
structure EphemeralBlockDeviceConfig where
  device_name : String
  virtual_name : String
deriving DecidableEq, Repr

/-- An element of the deprecated `root_block_device` list. -/
structure RootBlockDeviceConfig where
  delete_on_termination : Bool
  iops : Int
  volume_size : Int
  volume_type : String
deriving DecidableEq, Repr

/-- The configuration of the resource as seen through `d.Get`: each
attribute holds its configured value, or the Go zero value when unset.
`d.GetOk` is modelled per use site as a comparison with the zero
value. -/
structure LaunchConfig where
  name : String
  name_prefix : String
  image_id : String
  instance_type : String
  iam_instance_profile : String
  key_name : String
  user_data : String
  security_groups : List String
  vpc_classic_link_id : String
  vpc_classic_link_security_groups : List String
  associate_public_ip_address : Bool
  spot_price : String
  ebs_optimized : Bool
  placement_tenancy : String
  enable_monitoring : Bool
  block_device_mapping : List BdmMappingConfig
  ebs_block_device : List EbsBlockDeviceConfig
  ephemeral_block_device : List EphemeralBlockDeviceConfig
  root_block_device : List RootBlockDeviceConfig
deriving DecidableEq, Repr

/-- The dynamic (interface-typed) value the framework stores for a
collection attribute: a `*schema.Set` for `TypeSet` attributes, a plain
Go slice for `TypeList` attributes. -/
inductive TfCollection (α : Type) where
  | set (elems : List α)
  | list (elems : List α)
deriving DecidableEq, Repr

/-- The single-value Go type assertion `v.([]interface l)`: it yields
the slice when the dynamic type really is a slice, and `none` — a
runtime panic at the assertion site — when the value is a
`*schema.Set`. -/
def TfCollection.asGoList : TfCollection α → Option (List α)
  | .list es => some es
  | .set _ => none

/-! ## expandAutoscalingEbs (lines 772-803) -/

/-- `expandAutoscalingEbs`: builds the SDK EBS descriptor from the
nested `ebs` list of a consolidated block-device-mapping element.
Empty strings, zero volume size, non-positive iops and a false
encrypted flag are left unset. -/
def expandAutoscalingEbs : List (Option EbsConfig) → Option Ebs
  | [] => none
  | none :: _ => none
  | some m :: _ =>
      some
        { deleteOnTermination := some m.delete_on_termination
          snapshotId := if m.snapshot_id ≠ "" then some m.snapshot_id else none
          encrypted := if m.encrypted then some m.encrypted else none
          volumeSize := if m.volume_size ≠ 0 then some m.volume_size else none
          volumeType := if m.volume_type ≠ "" then some m.volume_type else none
          iops := if m.iops > 0 then some m.iops else none }

/-! ## expandAutoscalingBlockDeviceMappings (lines 737-770)

The Go function allocates `out := make([]*autoscaling.BlockDeviceMapping,
len(in), len(in))` — a slice of nil pointers — and then assigns
`out[i].DeviceName`, `out[i].Ebs`, ... without ever allocating the
elements.  For an empty input or a nil first element it returns
`(nil, nil)` before entering the loop; otherwise the very first field
assignment of iteration 0 writes through the nil element `out[0]` and
panics.  When `is_root_device` is set, the right-hand side
`fetchRootDeviceName(amiId, ec2conn)` of the multi-assignment is
evaluated (one remote call) before the panicking write. -/
def expandAutoscalingBlockDeviceMappings (inL : List (Option BdmMappingConfig))
    (amiId : String) (conn : AWSConn) :
    Res (Option (List (Option BlockDeviceMapping))) × List RemoteCall :=
  match inL with
  | [] => (.ok none, [])
  | none :: _ => (.ok none, [])
  | some m :: _ =>
      -- the element map always carries the is_root_device key
      if m.is_root_device then
        -- out[0].DeviceName, err = fetchRootDeviceName(amiId, ec2conn):
        -- the lookup runs, then the assignment to out[0].DeviceName panics
        (.panicked nilDereferenceMsg, (fetchRootDeviceName amiId conn).2)
      else
        -- out[0].DeviceName = aws.String(m["device_name"].(string)) panics
        (.panicked nilDereferenceMsg, [])

/-! ## flattenAutoscalingEbs (lines 843-869) -/

/-- The map produced for the nested `ebs` list entry by
`flattenAutoscalingEbs`; a key is present exactly when the SDK field is
non-nil. -/
structure FlatEbs where
  delete_on_termination : Option Bool
  encrypted : Option Bool
  iops : Option Int
  snapshot_id : Option String
  volume_size : Option Int
  volume_type : Option String
deriving DecidableEq, Repr

/-- `flattenAutoscalingEbs`: a nil descriptor flattens to the empty
list, otherwise to a one-element list keeping exactly the non-nil
fields. -/
def flattenAutoscalingEbs : Option Ebs → List FlatEbs
  | none => []
  | some e =>
      [{ delete_on_termination := e.deleteOnTermination
         encrypted := e.encrypted
         iops := e.iops
         snapshot_id := e.snapshotId
         volume_size := e.volumeSize
         volume_type := e.volumeType }]

/-! ## flattenAutoscalingBlockDeviceMappings (lines 805-841) -/

/-- The map produced for one block-device mapping by
`flattenAutoscalingBlockDeviceMappings`. -/
structure FlatBdm where
  device_name : Option String
  is_root_device : Option Bool
  ebs : Option (List FlatEbs)
  no_device : Option Bool
  virtual_name : Option String
deriving DecidableEq, Repr

/-- Loop body of `flattenAutoscalingBlockDeviceMappings` over the
mapping list.  For an entry with a device name the root-device name is
fetched and dereferenced with no nil guard: when the lookup yields no
name (`nil, nil`), the comparison `*rootDeviceName == *bdm.DeviceName`
panics. -/
def flattenBdmLoop (amiId : String) (conn : AWSConn) :
    List BlockDeviceMapping → Res (List FlatBdm) × List RemoteCall
  | [] => (.ok [], [])
  | bdm :: rest =>
      match bdm.deviceName with
      | some dn =>
          match fetchRootDeviceName amiId conn with
          | (.error e, cs) => (.err (.aws e), cs)
          | (.ok none, cs) => (.panicked nilDereferenceMsg, cs)
          | (.ok (some r), cs) =>
              match flattenBdmLoop amiId conn rest with
              | (.ok ms, cs2) =>
                  (.ok
                    ({ device_name := some dn
                       is_root_device := some (r == dn)
                       ebs := if bdm.ebs.isSome then some (flattenAutoscalingEbs bdm.ebs) else none
                       no_device := bdm.noDevice
                       virtual_name := bdm.virtualName } :: ms), cs ++ cs2)
              | (other, cs2) => (other, cs ++ cs2)
      | none =>
          match flattenBdmLoop amiId conn rest with
          | (.ok ms, cs2) =>
              (.ok
                ({ device_name := none
                   is_root_device := none
                   ebs := if bdm.ebs.isSome then some (flattenAutoscalingEbs bdm.ebs) else none
                   no_device := bdm.noDevice
                   virtual_name := bdm.virtualName } :: ms), cs2)
          | (other, cs2) => (other, cs2)

/-- `flattenAutoscalingBlockDeviceMappings`: the empty mapping list
short-circuits to the empty result before any lookup. -/
def flattenAutoscalingBlockDeviceMappings (inL : List BlockDeviceMapping)
    (amiId : String) (conn : AWSConn) : Res (List FlatBdm) × List RemoteCall :=
  match inL with
  | [] => (.ok [], [])
  | l => flattenBdmLoop amiId conn l

/-! ## readBlockDevicesFromLaunchConfiguration (lines 681-735) -/

/-- The map `bd` built for one returned block-device mapping; a key is
present exactly when the corresponding branch of the loop set it. -/
structure BDAttrs where
  delete_on_termination : Option Bool
  volume_size : Option Int
  volume_type : Option String
  iops : Option Int
  encrypted : Option Bool
  device_name : Option String
  virtual_name : Option String
  snapshot_id : Option String
deriving DecidableEq, Repr

/-- The classified block devices: the `ebs`, `ephemeral` and `root`
entries of the returned map. -/
structure BlockDevices where
  ebs : List BDAttrs
  ephemeral : List BDAttrs
  root : Option BDAttrs
deriving DecidableEq, Repr

/-- The part of `bd` filled in before the root check (lines 700-712):
the four EBS attributes shared by every classification. -/
def launchConfigBdCommon (bdm : BlockDeviceMapping) : BDAttrs :=
  { delete_on_termination := bdm.ebs.bind Ebs.deleteOnTermination
    volume_size := bdm.ebs.bind Ebs.volumeSize
    volume_type := bdm.ebs.bind Ebs.volumeType
    iops := bdm.ebs.bind Ebs.iops
    encrypted := none
    device_name := none
    virtual_name := none
    snapshot_id := none }

/-- The additional keys set on a non-root entry (lines 717-722). -/
def launchConfigBdNonRoot (bdm : BlockDeviceMapping) : BDAttrs :=
  { launchConfigBdCommon bdm with
      encrypted := bdm.ebs.bind Ebs.encrypted
      device_name := bdm.deviceName }

/-- A non-root entry with a virtual name, placed on the ephemeral list
(lines 723-725). -/
def launchConfigBdEphemeral (bdm : BlockDeviceMapping) : BDAttrs :=
  { launchConfigBdNonRoot bdm with virtual_name := bdm.virtualName }

/-- A non-root entry without a virtual name, placed on the EBS list
(lines 727-730). -/
def launchConfigBdEbs (bdm : BlockDeviceMapping) : BDAttrs :=
  { launchConfigBdNonRoot bdm with snapshot_id := bdm.ebs.bind Ebs.snapshotId }

/-- The root test of line 714:
`bdm.DeviceName != nil && *bdm.DeviceName == *rootDeviceName`. -/
def isRootEntry (rootEff : String) (bdm : BlockDeviceMapping) : Bool :=
  bdm.deviceName == some rootEff

/-- The classification loop of lines 699-733, with the map under
construction as accumulator.  The root slot is overwritten by each
matching entry, so the last match wins. -/
def readBlockDevicesLoop (rootEff : String) (acc : BlockDevices) :
    List BlockDeviceMapping → BlockDevices
  | [] => acc
  | bdm :: rest =>
      if isRootEntry rootEff bdm then
        readBlockDevicesLoop rootEff
          { acc with root := some (launchConfigBdCommon bdm) } rest
      else if bdm.virtualName.isSome then
        readBlockDevicesLoop rootEff
          { acc with ephemeral := acc.ephemeral ++ [launchConfigBdEphemeral bdm] } rest
      else
        readBlockDevicesLoop rootEff
          { acc with ebs := acc.ebs ++ [launchConfigBdEbs bdm] } rest

/-- `readBlockDevicesFromLaunchConfiguration`: returns `none` (Go
`nil, nil`) when the launch configuration reports no mappings; otherwise
fetches the root-device name (substituting the empty string when the
lookup yields none, lines 694-698) and classifies every mapping. -/
def readBlockDevicesFromLaunchConfiguration (imageId : String) (conn : AWSConn)
    (mappings : List BlockDeviceMapping) :
    Except AwsErr (Option BlockDevices) × List RemoteCall :=
  match mappings with
  | [] => (.ok none, [])
  | l =>
      match fetchRootDeviceName imageId conn with
      | (.error e, cs) => (.error e, cs)
      | (.ok r, cs) =>
          (.ok (some (readBlockDevicesLoop (r.getD "")
            { ebs := [], ephemeral := [], root := none } l)), cs)

/-- `readLCBlockDevices` (lines 658-679): distributes the classified
devices over the three deprecated state attributes.  A `none` result of
the classification reads as a nil map, whose lookups all yield nil. -/
def readLCBlockDevices : Option BlockDevices →
    List BDAttrs × List BDAttrs × List BDAttrs
  | none => ([], [], [])
  | some bds =>
      (bds.ebs, bds.ephemeral,
        match bds.root with
        | some r => [r]
        | none => [])

/-! ## Read (lines 579-636) -/

/-- The state attributes written by a successful Read. -/
structure ReadState where
  key_name : Option String
  image_id : Option String
  instance_type : Option String
  name : Option String
  iam_instance_profile : Option String
  ebs_optimized : Option Bool
  spot_price : Option String
  enable_monitoring : Option Bool
  security_groups : List (Option String)
  associate_public_ip_address : Option Bool
  vpc_classic_link_id : Option String
  vpc_classic_link_security_groups : List (Option String)
  block_device_mapping : List FlatBdm
  ebs_block_device : List BDAttrs
  ephemeral_block_device : List BDAttrs
  root_block_device : List BDAttrs
deriving DecidableEq, Repr

/-- Outcome of the Read operation. -/
inductive ReadOutcome where
  /-- state refreshed from the remote record -/
  | ok (st : ReadState)
  /-- record not found remotely: local record cleared (`d.SetId("")`)
  and success returned -/
  | removed
  | err (e : LCError)
  | panicked (msg : String)
deriving DecidableEq, Repr

/-- Everything Read does after the describe call, taking the describe
response as argument. -/
def readLaunchConfigurationResult (id : String) (conn : AWSConn)
    (resp : Except AwsErr (List LaunchConfiguration)) :
    ReadOutcome × List RemoteCall :=
  match resp with
  | .error e => (.err (.retrievingLaunchConfiguration e), [])
  | .ok [] => (.removed, [])
  | .ok (lc :: rest) =>
      -- line 599 dereferences the name pointer of the first record
      match lc.launchConfigurationName with
      | none => (.panicked nilDereferenceMsg, [])
      | some n =>
          if n ≠ id then
            (.err (.unableToFindLaunchConfiguration (lc :: rest)), [])
          else
            -- line 615 dereferences lc.InstanceMonitoring.Enabled
            match lc.instanceMonitoring with
            | none => (.panicked nilDereferenceMsg, [])
            | some monitoring =>
                -- line 622 dereferences *lc.ImageId
                match lc.imageId with
                | none => (.panicked nilDereferenceMsg, [])
                | some ami =>
                    match flattenAutoscalingBlockDeviceMappings
                        lc.blockDeviceMappings ami conn with
                    | (.err e, cs) => (.err e, cs)
                    | (.panicked m, cs) => (.panicked m, cs)
                    | (.ok bdms, cs) =>
                        match readBlockDevicesFromLaunchConfiguration
                            ami conn lc.blockDeviceMappings with
                        | (.error e, cs2) => (.err (.aws e), cs ++ cs2)
                        | (.ok obds, cs2) =>
                            let devs := readLCBlockDevices obds
                            (.ok
                              { key_name := lc.keyName
                                image_id := lc.imageId
                                instance_type := lc.instanceType
                                name := lc.launchConfigurationName
                                iam_instance_profile := lc.iamInstanceProfile
                                ebs_optimized := lc.ebsOptimized
                                spot_price := lc.spotPrice
                                enable_monitoring := monitoring
                                security_groups := lc.securityGroups
                                associate_public_ip_address := lc.associatePublicIpAddress
                                vpc_classic_link_id := lc.classicLinkVPCId
                                vpc_classic_link_security_groups := lc.classicLinkVPCSecurityGroups
                                block_device_mapping := bdms
                                ebs_block_device := devs.1
                                ephemeral_block_device := devs.2.1
                                root_block_device := devs.2.2 }, cs ++ cs2)

/-- `resourceAwsLaunchConfigurationRead`: one describe call, then the
processing above.  The attempt index selects the response seen by this
invocation (Read is re-invoked by the create read-back retry). -/
def resourceAwsLaunchConfigurationRead (id : String) (conn : AWSConn)
    (attempt : Nat) : ReadOutcome × List RemoteCall :=
  let r := readLaunchConfigurationResult id conn
    (conn.describeLaunchConfigurations attempt id)
  (r.1, RemoteCall.describeLaunchConfigurations id :: r.2)

/-! ## Delete (lines 638-656) -/

/-- `resourceAwsLaunchConfigurationDelete`: one delete call; an
InvalidConfiguration.NotFound error is swallowed as success, every
other error is returned unchanged. -/
def resourceAwsLaunchConfigurationDelete (id : String) (conn : AWSConn) :
    Except LCError Unit × List RemoteCall :=
  ((match conn.deleteLaunchConfiguration id with
    | .ok _ => .ok ()
    | .error e =>
        if isAWSErr e "InvalidConfiguration.NotFound" "" then .ok ()
        else .error (.aws e)),
   [RemoteCall.deleteLaunchConfiguration id])

/-! ## Create (lines 365-577) -/

/-- Modelled from the spec: the user-data payload is carried opaquely in
the creation request; the encoding helper `base64Encode` (defined
outside the file under verification) is modelled as the identity
embedding of the payload. -/
def base64Encode (s : String) : String := s

/-- Modelled from the spec: host-generated unique resource names
(`resource.PrefixedUniqueId` / `resource.UniqueId` of the provisioning
framework); only their shape matters here. -/
def prefixedUniqueId (p : String) : String := p ++ "terraform-unique-id"

/-- Modelled from the spec: host-generated unique resource name. -/
def uniqueId : String := "terraform-unique-id"

/-- Name resolution of lines 534-542: explicit name, then prefix, then
a fresh unique id. -/
def resolveLcName (cfg : LaunchConfig) : String :=
  if cfg.name ≠ "" then cfg.name
  else if LaunchConfig.name_prefix cfg ≠ "" then
    prefixedUniqueId (LaunchConfig.name_prefix cfg)
  else uniqueId

/-- The scalar part of the creation request (lines 369-418 plus the
final name assignment of line 542, which overwrites the name first set
on line 370).  `d.GetOk` yields false exactly on the zero value, so a
false boolean, empty string or empty set leaves the field unset. -/
def mkCreateOpts (cfg : LaunchConfig) (lcName : String)
    (bds : Option (List (Option BlockDeviceMapping))) :
    CreateLaunchConfigurationInput :=
  { launchConfigurationName := some lcName
    imageId := some cfg.image_id
    instanceType := some cfg.instance_type
    ebsOptimized := some cfg.ebs_optimized
    userData := if cfg.user_data ≠ "" then some (base64Encode cfg.user_data) else none
    instanceMonitoring := some cfg.enable_monitoring
    iamInstanceProfile :=
      if cfg.iam_instance_profile ≠ "" then some cfg.iam_instance_profile else none
    placementTenancy :=
      if cfg.placement_tenancy ≠ "" then some cfg.placement_tenancy else none
    associatePublicIpAddress :=
      if cfg.associate_public_ip_address then some cfg.associate_public_ip_address else none
    keyName := if cfg.key_name ≠ "" then some cfg.key_name else none
    spotPrice := if cfg.spot_price ≠ "" then some cfg.spot_price else none
    securityGroups :=
      if cfg.security_groups ≠ [] then some cfg.security_groups else none
    classicLinkVPCId :=
      if cfg.vpc_classic_link_id ≠ "" then some cfg.vpc_classic_link_id else none
    classicLinkVPCSecurityGroups :=
      if cfg.vpc_classic_link_security_groups ≠ [] then
        some cfg.vpc_classic_link_security_groups
      else none
    blockDeviceMappings := bds }

/-- The EBS descriptor built inside the `ebs_block_device` loop
(lines 447-469); identical omit rules to `expandAutoscalingEbs`. -/
def legacyEbsBlockDevice (bd : EbsBlockDeviceConfig) : Ebs :=
  { deleteOnTermination := some bd.delete_on_termination
    snapshotId := if bd.snapshot_id ≠ "" then some bd.snapshot_id else none
    encrypted := if bd.encrypted then some bd.encrypted else none
    volumeSize := if bd.volume_size ≠ 0 then some bd.volume_size else none
    volumeType := if bd.volume_type ≠ "" then some bd.volume_type else none
    iops := if bd.iops > 0 then some bd.iops else none }

/-- The `ebs_block_device` loop of lines 442-480: each entry first has
its EBS descriptor built, then its device name is compared with the
root-device name (line 471); a match aborts the whole Create with the
root-device error before the entry is appended. -/
def legacyEbsLoop (rootEff : String) :
    List EbsBlockDeviceConfig → Except LCError (List (Option BlockDeviceMapping))
  | [] => .ok []
  | bd :: rest =>
      if bd.device_name == rootEff then
        .error (.rootDeviceDeclaredAsEbs rootEff)
      else
        match legacyEbsLoop rootEff rest with
        | .error e => .error e
        | .ok out =>
            .ok (some
              { deviceName := some bd.device_name
                virtualName := none
                noDevice := none
                ebs := some (legacyEbsBlockDevice bd) } :: out)

/-- One entry of the `ephemeral_block_device` loop (lines 482-491). -/
def legacyEphemeralBdm (bd : EphemeralBlockDeviceConfig) : Option BlockDeviceMapping :=
  some
    { deviceName := some bd.device_name
      virtualName := some bd.virtual_name
      noDevice := none
      ebs := none }

/-- The `root_block_device` loop of lines 493-527: for every entry the
root-device name is fetched again; a lookup error aborts, a missing
name is a hard error, otherwise the entry is mapped onto the fetched
name. -/
def legacyRootLoop (imageId : String) (conn : AWSConn) :
    List RootBlockDeviceConfig →
      Except LCError (List (Option BlockDeviceMapping)) × List RemoteCall
  | [] => (.ok [], [])
  | bd :: rest =>
      let ebs : Ebs :=
        { deleteOnTermination := some bd.delete_on_termination
          snapshotId := none
          encrypted := none
          volumeSize := if bd.volume_size ≠ 0 then some bd.volume_size else none
          volumeType := if bd.volume_type ≠ "" then some bd.volume_type else none
          iops := if bd.iops > 0 then some bd.iops else none }
      match fetchRootDeviceName imageId conn with
      | (.error e, cs) => (.error (.aws e), cs)
      | (.ok none, cs) => (.error (.noRootDeviceName imageId), cs)
      | (.ok (some dn), cs) =>
          match legacyRootLoop imageId conn rest with
          | (.error e, cs2) => (.error e, cs ++ cs2)
          | (.ok out, cs2) =>
              (.ok (some
                { deviceName := some dn
                  virtualName := none
                  noDevice := none
                  ebs := some ebs } :: out), cs ++ cs2)

/-- The deprecated-fields branch of Create (lines 428-531): fetch the
root-device name once (substituting the empty string for a missing
name, lines 436-440), then run the three legacy loops in order.  The
`d.GetOk` guards around the loops are immaterial because a loop over an
empty collection contributes nothing. -/
def buildLegacyBlockDevices (cfg : LaunchConfig) (conn : AWSConn) :
    Except LCError (List (Option BlockDeviceMapping)) × List RemoteCall :=
  match fetchRootDeviceName cfg.image_id conn with
  | (.error e, cs) => (.error (.aws e), cs)
  | (.ok r, cs) =>
      match legacyEbsLoop (r.getD "") cfg.ebs_block_device with
      | .error e => (.error e, cs)
      | .ok ebsDevs =>
          let ephem := cfg.ephemeral_block_device.map legacyEphemeralBdm
          match legacyRootLoop cfg.image_id conn cfg.root_block_device with
          | (.error e, cs2) => (.error e, cs ++ cs2)
          | (.ok rootDevs, cs2) => (.ok (ebsDevs ++ ephem ++ rootDevs), cs ++ cs2)

/-- The whole block-device section of Create (lines 420-532).  When the
consolidated `block_device_mapping` set is non-empty, `d.GetOk`
succeeds and the stored `*schema.Set` is type-asserted to a Go slice
(line 423), which panics; the expansion behind the assertion is never
reached.  Otherwise the deprecated fields are used, and the mappings
are attached only when at least one was produced (line 529). -/
def buildBlockDevices (cfg : LaunchConfig) (conn : AWSConn) :
    Res (Option (List (Option BlockDeviceMapping))) × List RemoteCall :=
  if cfg.block_device_mapping.isEmpty then
    match buildLegacyBlockDevices cfg conn with
    | (.error e, cs) => (.err e, cs)
    | (.ok bds, cs) => (.ok (if bds.length > 0 then some bds else none), cs)
  else
    match (TfCollection.set cfg.block_device_mapping).asGoList with
    | none => (.panicked setToListAssertionMsg, [])
    | some l =>
        match expandAutoscalingBlockDeviceMappings (l.map some) cfg.image_id conn with
        | (.ok bds, cs) => (.ok bds, cs)
        | (.err e, cs) => (.err e, cs)
        | (.panicked m, cs) => (.panicked m, cs)

/-- The retryability test of the create closure (lines 551-556): only
the two validation-error signatures are retried. -/
def createRetryableError (e : AwsErr) : Bool :=
  isAWSErr e "ValidationError" "Invalid IamInstanceProfile" ||
  isAWSErr e "ValidationError" "You are not authorized to perform this operation"

/-- `resource.Retry(90*time.Second, ...)` around the create call
(lines 548-560), with the bounded wall-clock window modelled by a
retry budget: each attempt calls the endpoint; a retryable error
consumes budget and retries, an exhausted budget yields the timeout
error wrapping the last error, any other error aborts at once.  The
returned number counts the attempts made (the argument `i` numbers the
first one). -/
def createRetryLoop (conn : AWSConn) (opts : CreateLaunchConfigurationInput) :
    Nat → Nat → Except LCError Unit × Nat
  | 0, i =>
      (match conn.createLaunchConfiguration i opts with
       | .ok _ => (.ok (), i + 1)
       | .error e =>
           if createRetryableError e then (.error (.retryTimeout (.aws e)), i + 1)
           else (.error (.aws e), i + 1))
  | fuel + 1, i =>
      match conn.createLaunchConfiguration i opts with
      | .ok _ => (.ok (), i + 1)
      | .error e =>
          if createRetryableError e then createRetryLoop conn opts fuel (i + 1)
          else (.error (.aws e), i + 1)

/-- The read-back retry of lines 570-576 (`resource.Retry(30*time.Second,
...)`): every Read error is retryable; success and the removed case end
the retry at once; a panic propagates. -/
def readBackLoop (id : String) (conn : AWSConn) :
    Nat → Nat → ReadOutcome × List RemoteCall
  | 0, attempt =>
      (match resourceAwsLaunchConfigurationRead id conn attempt with
       | (.err e, cs) => (.err (.retryTimeout e), cs)
       | r => r)
  | fuel + 1, attempt =>
      match resourceAwsLaunchConfigurationRead id conn attempt with
      | (.err _, cs) =>
          let r := readBackLoop id conn fuel (attempt + 1)
          (r.1, cs ++ r.2)
      | r => r

/-- Outcome of the Create operation. -/
inductive CreateOutcome where
  /-- create call accepted, id set to the resolved name; carries the
  result of the read-back (refreshed state, or removed when the record
  was still invisible and the describe returned nothing) -/
  | ok (lcName : String) (readBack : ReadOutcome)
  | err (e : LCError)
  | panicked (msg : String)
deriving DecidableEq, Repr

/-- Lifts the final read-back outcome into the Create outcome. -/
def liftReadBack (lcName : String) : ReadOutcome → CreateOutcome
  | .ok st => .ok lcName (.ok st)
  | .removed => .ok lcName .removed
  | .err e => .err e
  | .panicked m => .panicked m

/-- `resourceAwsLaunchConfigurationCreate`: block-device section, name
resolution, creation request under the bounded retry (a failure is
wrapped with the creating-launch-configuration context, line 562),
then the bounded-retry read-back. -/
def resourceAwsLaunchConfigurationCreate (cfg : LaunchConfig) (conn : AWSConn)
    (createBudget readBudget : Nat) : CreateOutcome × List RemoteCall :=
  match buildBlockDevices cfg conn with
  | (.panicked m, cs) => (.panicked m, cs)
  | (.err e, cs) => (.err e, cs)
  | (.ok bds, cs) =>
      let lcName := resolveLcName cfg
      let opts := mkCreateOpts cfg lcName bds
      match createRetryLoop conn opts createBudget 0 with
      | (.error e, n) =>
          (.err (.creatingLaunchConfiguration e),
            cs ++ List.replicate n (RemoteCall.createLaunchConfiguration opts))
      | (.ok _, n) =>
          let rb := readBackLoop lcName conn readBudget 0
          (liftReadBack lcName rb.1,
            cs ++ List.replicate n (RemoteCall.createLaunchConfiguration opts) ++ rb.2)

/-! ## The schema declaration (lines 42-361)

Function-valued schema fields (`StateFunc`, `ValidateFunc`, the custom
`Set` hash) carry no data relevant to any claim and are recorded only
as presence flags or omitted. -/

/-- The `schema.Type` of an attribute. -/
inductive SchemaType where
  | string
  | int
  | bool
  | set
  | list
deriving DecidableEq, Repr

/-- A leaf attribute of a second-level element schema (the `ebs` block
inside `block_device_mapping`). -/
structure ElemLeafAttr where
  name : String
  typ : SchemaType
  required : Bool
  optional : Bool
  computed : Bool
  forceNew : Bool
  hasDefault : Bool
deriving DecidableEq, Repr

/-- An attribute of a first-level element schema. -/
structure ElemAttr where
  name : String
  typ : SchemaType
  required : Bool
  optional : Bool
  computed : Bool
  forceNew : Bool
  hasDefault : Bool
  maxItems : Option Nat
  elem : List ElemLeafAttr
deriving DecidableEq, Repr

/-- A top-level attribute of the resource schema. -/
structure AttrSpec where
  name : String
  typ : SchemaType
  required : Bool
  optional : Bool
  computed : Bool
  forceNew : Bool
  deprecated : Bool
  hasDefault : Bool
  conflictsWith : List String
  maxItems : Option Nat
  elem : List ElemAttr
deriving DecidableEq, Repr

/-- Shorthand for a leaf with neither default nor computed flag. -/
def leafAttr (name : String) (typ : SchemaType)
    (required optional computed forceNew hasDefault : Bool) : ElemLeafAttr :=
  { name := name, typ := typ, required := required, optional := optional
    computed := computed, forceNew := forceNew, hasDefault := hasDefault }

/-- Shorthand for a first-level element attribute without nesting. -/
def elemAttr (name : String) (typ : SchemaType)
    (required optional computed forceNew hasDefault : Bool) : ElemAttr :=
  { name := name, typ := typ, required := required, optional := optional
    computed := computed, forceNew := forceNew, hasDefault := hasDefault
    maxItems := none, elem := [] }

/-- Shorthand for a scalar top-level attribute. -/
def topAttr (name : String) (typ : SchemaType)
    (required optional computed forceNew : Bool) : AttrSpec :=
  { name := name, typ := typ, required := required, optional := optional
    computed := computed, forceNew := forceNew, deprecated := false
    hasDefault := false, conflictsWith := [], maxItems := none, elem := [] }

/-- The element schema of the nested `ebs` list (lines 191-230). -/
def ebsElemSchema : List ElemLeafAttr :=
  [leafAttr "delete_on_termination" .bool false true false true true,
   leafAttr "iops" .int false true true true false,
   leafAttr "snapshot_id" .string false true true true false,
   leafAttr "volume_size" .int false true true true false,
   leafAttr "volume_type" .string false true true true false,
   leafAttr "encrypted" .bool false true true true false]

/-- The element schema of `block_device_mapping` (lines 160-233). -/
def blockDeviceMappingElemSchema : List ElemAttr :=
  [elemAttr "device_name" .string false true false true false,
   elemAttr "virtual_name" .string false true false true false,
   elemAttr "no_device" .bool false true false true false,
   elemAttr "is_root_device" .bool false true false true false,
   { name := "ebs", typ := .list, required := false, optional := true
     computed := false, forceNew := true, hasDefault := false
     maxItems := some 1, elem := ebsElemSchema }]

/-- The element schema of the deprecated `ebs_block_device` set
(lines 242-292). -/
def ebsBlockDeviceElemSchema : List ElemAttr :=
  [elemAttr "device_name" .string true false false true false,
   elemAttr "delete_on_termination" .bool false true false true true,
   elemAttr "iops" .int false true true true false,
   elemAttr "snapshot_id" .string false true true true false,
   elemAttr "volume_size" .int false true true true false,
   elemAttr "volume_type" .string false true true true false,
   elemAttr "encrypted" .bool false true true true false]

/-- The element schema of the deprecated `ephemeral_block_device` set
(lines 299-311); note that its two leaves carry no ForceNew flag of
their own. -/
def ephemeralBlockDeviceElemSchema : List ElemAttr :=
  [elemAttr "device_name" .string true false false false false,
   elemAttr "virtual_name" .string true false false false false]

/-- The element schema of the deprecated `root_block_device` list
(lines 326-359). -/
def rootBlockDeviceElemSchema : List ElemAttr :=
  [elemAttr "delete_on_termination" .bool false true false true true,
   elemAttr "iops" .int false true true true false,
   elemAttr "volume_size" .int false true true true false,
   elemAttr "volume_type" .string false true true true false]

/-- The top-level schema map of `resourceAwsLaunchConfiguration`
(lines 42-361), in declaration order. -/
def launchConfigurationSchema : List AttrSpec :=
  [{ topAttr "name" .string false true true true with
       conflictsWith := ["name_prefix"] },
   topAttr "name_prefix" .string false true false true,
   topAttr "image_id" .string true false false true,
   topAttr "instance_type" .string true false false true,
   topAttr "iam_instance_profile" .string false true false true,
   topAttr "key_name" .string false true true true,
   topAttr "user_data" .string false true false true,
   topAttr "security_groups" .set false true false true,
   topAttr "vpc_classic_link_id" .string false true false true,
   topAttr "vpc_classic_link_security_groups" .set false true false true,
   { topAttr "associate_public_ip_address" .bool false true false true with
       hasDefault := true },
   topAttr "spot_price" .string false true false true,
   topAttr "ebs_optimized" .bool false true true true,
   topAttr "placement_tenancy" .string false true false true,
   { topAttr "enable_monitoring" .bool false true false true with
       hasDefault := true },
   { name := "block_device_mapping", typ := .set, required := false
     optional := true, computed := false, forceNew := true, deprecated := false
     hasDefault := false
     conflictsWith := ["ebs_block_device", "ephemeral_block_device", "root_block_device"]
     maxItems := none, elem := blockDeviceMappingElemSchema },
   -- lines 237-241: Type, Optional, Computed, Deprecated — no ForceNew
   { name := "ebs_block_device", typ := .set, required := false
     optional := true, computed := true, forceNew := false, deprecated := true
     hasDefault := false, conflictsWith := [], maxItems := none
     elem := ebsBlockDeviceElemSchema },
   { name := "ephemeral_block_device", typ := .set, required := false
     optional := true, computed := false, forceNew := true, deprecated := true
     hasDefault := false, conflictsWith := [], maxItems := none
     elem := ephemeralBlockDeviceElemSchema },
   -- lines 320-325: Type, Optional, Computed, MaxItems, Deprecated — no ForceNew
   { name := "root_block_device", typ := .list, required := false
     optional := true, computed := true, forceNew := false, deprecated := true
     hasDefault := false, conflictsWith := [], maxItems := some 1
     elem := rootBlockDeviceElemSchema }]

/-- An attribute the user can set in configuration. -/
def userSettable (a : AttrSpec) : Bool :=
  a.optional || a.required

/-! ## Shared concrete fixtures for evaluation -/

/-- A minimal configuration; individual claims override single fields. -/
def baseCfg : LaunchConfig :=
  { name := "lc0"
    name_prefix := ""
    image_id := "ami-1"
    instance_type := "t2.micro"
    iam_instance_profile := ""
    key_name := ""
    user_data := ""
    security_groups := []
    vpc_classic_link_id := ""
    vpc_classic_link_security_groups := []
    associate_public_ip_address := false
    spot_price := ""
    ebs_optimized := false
    placement_tenancy := ""
    enable_monitoring := true
    block_device_mapping := []
    ebs_block_device := []
    ephemeral_block_device := []
    root_block_device := [] }

/-- Oracle whose image metadata names `root` as the root device and
whose mutating endpoints succeed. -/
def connRoot (root : String) : AWSConn :=
  { rootDeviceName := fun _ => .ok (some root)
    createLaunchConfiguration := fun _ _ => .ok ()
    describeLaunchConfigurations := fun _ _ => .ok []
    deleteLaunchConfiguration := fun _ => .ok () }

/-- Oracle whose image metadata lookup succeeds but yields no
root-device name. -/
def connNoRoot : AWSConn :=
  { rootDeviceName := fun _ => .ok none
    createLaunchConfiguration := fun _ _ => .ok ()
    describeLaunchConfigurations := fun _ _ => .ok []
    deleteLaunchConfiguration := fun _ => .ok () }

/-- Oracle whose create endpoint always answers with a given error. -/
def connCreateErr (e : AwsErr) : AWSConn :=
  { rootDeviceName := fun _ => .ok (some "/dev/sda1")
    createLaunchConfiguration := fun _ _ => .error e
    describeLaunchConfigurations := fun _ _ => .ok []
    deleteLaunchConfiguration := fun _ => .ok () }

/-- Oracle whose delete endpoint always answers with a given error. -/
def connDeleteErr (e : AwsErr) : AWSConn :=
  { rootDeviceName := fun _ => .ok (some "/dev/sda1")
    createLaunchConfiguration := fun _ _ => .ok ()
    describeLaunchConfigurations := fun _ _ => .ok []
    deleteLaunchConfiguration := fun _ => .error e }

/-! ## Claim C2: not every user-settable attribute is force-new -/

/-- C2 counterexample: the claim that every user-settable attribute of
the schema is marked force-new is false — the deprecated
`ebs_block_device` attribute (and likewise `root_block_device`) is
optional yet carries no ForceNew flag. -/
theorem schema_not_all_force_new :
    ¬ (∀ a ∈ launchConfigurationSchema, userSettable a = true → a.forceNew = true) := by
  decide

/-- C2 (amended): every user-settable attribute of the
launch-configuration schema is marked force-new except the two
deprecated attributes `ebs_block_device` and `root_block_device`, which
carry no top-level ForceNew flag. -/
theorem schema_force_new_except_deprecated_pair :
    ∀ a ∈ launchConfigurationSchema, userSettable a = true →
      (a.forceNew = true ∨ a.name = "ebs_block_device" ∨ a.name = "root_block_device") := by
  decide

/-- Witness for the amended C2 theorem at the `image_id` attribute. -/
theorem schema_force_new_except_deprecated_pair_witness :
    (topAttr "image_id" .string true false false true).forceNew = true ∨
      (topAttr "image_id" .string true false false true).name = "ebs_block_device" ∨
      (topAttr "image_id" .string true false false true).name = "root_block_device" :=
  schema_force_new_except_deprecated_pair
    (topAttr "image_id" .string true false false true) (by decide) (by decide)

/-! ## Claim C7: omit rules for zero-valued size and iops -/

/-- C7 counterexample: a negative (hence non-zero) iops value is not
carried through to the request — the code only sends iops when it is
strictly positive — so the claim that every non-zero value is carried
through unchanged fails at iops = -1. -/
theorem negative_iops_not_carried :
    ((-1 : Int) ≠ 0) ∧
      (expandAutoscalingEbs
          [some { delete_on_termination := true, iops := -1, snapshot_id := ""
                  volume_size := 8, volume_type := "", encrypted := false }]).map Ebs.iops
        = some none := by
  decide

/-- C7 (amended): in the EBS descriptors sent outbound — both the
consolidated `expandAutoscalingEbs` and the deprecated
`ebs_block_device` path — a zero volume size is omitted and a non-zero
one is carried through unchanged, while iops is carried through exactly
when strictly positive (zero and negative iops are omitted). -/
theorem ebs_zero_size_iops_omitted :
    (∀ m : EbsConfig, ∃ e, expandAutoscalingEbs [some m] = some e ∧
        e.volumeSize = (if m.volume_size = 0 then none else some m.volume_size) ∧
        e.iops = (if 0 < m.iops then some m.iops else none)) ∧
    (∀ bd : EbsBlockDeviceConfig,
        (legacyEbsBlockDevice bd).volumeSize =
          (if bd.volume_size = 0 then none else some bd.volume_size) ∧
        (legacyEbsBlockDevice bd).iops =
          (if 0 < bd.iops then some bd.iops else none)) := by
  constructor
  · intro m
    refine ⟨_, rfl, ?_, ?_⟩
    · by_cases h : m.volume_size = 0 <;> simp [h]
    · by_cases h : 0 < m.iops <;> simp [h]
  · intro bd
    constructor
    · by_cases h : bd.volume_size = 0 <;> simp [legacyEbsBlockDevice, h]
    · by_cases h : 0 < bd.iops <;> simp [legacyEbsBlockDevice, h]

/-! ## Claim C8: delete tolerates not-found -/

/-- C8: Delete succeeds exactly when the remote delete succeeds or
fails with the InvalidConfiguration.NotFound signature; any other error
is surfaced unchanged as a failure. -/
theorem delete_tolerates_not_found (id : String) (conn : AWSConn) :
    ((resourceAwsLaunchConfigurationDelete id conn).1 = .ok () ↔
      (conn.deleteLaunchConfiguration id = .ok () ∨
        ∃ e, conn.deleteLaunchConfiguration id = .error e ∧
          isAWSErr e "InvalidConfiguration.NotFound" "" = true)) ∧
    (∀ e, conn.deleteLaunchConfiguration id = .error e →
      isAWSErr e "InvalidConfiguration.NotFound" "" = false →
      (resourceAwsLaunchConfigurationDelete id conn).1 = .error (.aws e)) := by
  constructor
  · cases h : conn.deleteLaunchConfiguration id with
    | ok u => simp [resourceAwsLaunchConfigurationDelete, h]
    | error e =>
        by_cases hm : isAWSErr e "InvalidConfiguration.NotFound" "" = true
        · simp [resourceAwsLaunchConfigurationDelete, h, hm]
        · simp only [Bool.not_eq_true] at hm
          simp [resourceAwsLaunchConfigurationDelete, h, hm]
  · intro e he hm
    simp [resourceAwsLaunchConfigurationDelete, he, hm]

/-- Witness for C8: a delete answered by InvalidConfiguration.NotFound
is reported as success. -/
theorem delete_tolerates_not_found_witness :
    (resourceAwsLaunchConfigurationDelete "lc0"
      (connDeleteErr { code := "InvalidConfiguration.NotFound", message := "gone" })).1 = .ok () :=
  (delete_tolerates_not_found "lc0"
    (connDeleteErr { code := "InvalidConfiguration.NotFound", message := "gone" })).1.mpr
    (Or.inr ⟨{ code := "InvalidConfiguration.NotFound", message := "gone" }, rfl, by decide⟩)

/-! ## Claim C3: the expand/flatten round trip -/

/-- C3: the claimed round trip cannot even start — on any non-empty
block-device-mapping list the forward translation
`expandAutoscalingBlockDeviceMappings` writes its fields through the
nil elements of its freshly allocated output slice and panics, here
evaluated at a concrete one-entry list. -/
theorem expand_faults_on_concrete_entry :
    (expandAutoscalingBlockDeviceMappings
        [some { device_name := "/dev/sdb", virtual_name := "", no_device := false
                is_root_device := false
                ebs := [some { delete_on_termination := true, iops := 100
                               snapshot_id := "", volume_size := 8
                               volume_type := "gp2", encrypted := false }] }]
        "ami-1" (connRoot "/dev/sda1")).1 = .panicked nilDereferenceMsg := by
  decide

/-! ## Claim C4: non-empty block_device_mapping never reaches the create call -/

/-- C4: with a non-empty consolidated `block_device_mapping` value the
Create operation always takes the panic branch before issuing any
remote call — the framework stores a `*schema.Set` which the code
asserts to a Go slice — and, independently, the expansion helper
panics on every list whose first element is a non-nil entry, writing
through the nil elements of its freshly allocated output slice. -/
theorem nonempty_bdm_panics_before_create (cfg : LaunchConfig) (conn : AWSConn)
    (cb rb : Nat) (h : cfg.block_device_mapping ≠ []) :
    resourceAwsLaunchConfigurationCreate cfg conn cb rb =
      (.panicked setToListAssertionMsg, []) ∧
    (∀ (m : BdmMappingConfig) (ms : List (Option BdmMappingConfig)) (amiId : String),
      (expandAutoscalingBlockDeviceMappings (some m :: ms) amiId conn).1 =
        .panicked nilDereferenceMsg) := by
  constructor
  · have hne : cfg.block_device_mapping.isEmpty = false := by
      cases hbd : cfg.block_device_mapping with
      | nil => exact absurd hbd h
      | cons a l => rfl
    simp [resourceAwsLaunchConfigurationCreate, buildBlockDevices, hne,
      TfCollection.asGoList]
  · intro m ms amiId
    by_cases hr : m.is_root_device <;>
      simp [expandAutoscalingBlockDeviceMappings, hr]

/-- Witness for C4 at a concrete configuration with one consolidated
block-device-mapping entry. -/
theorem nonempty_bdm_panics_before_create_witness :
    resourceAwsLaunchConfigurationCreate
        { baseCfg with block_device_mapping :=
            [{ device_name := "/dev/sdb", virtual_name := "", no_device := false
               is_root_device := false, ebs := [] }] }
        (connRoot "/dev/sda1") 3 3 =
      (.panicked setToListAssertionMsg, []) :=
  (nonempty_bdm_panics_before_create
    { baseCfg with block_device_mapping :=
        [{ device_name := "/dev/sdb", virtual_name := "", no_device := false
           is_root_device := false, ebs := [] }] }
    (connRoot "/dev/sda1") 3 3 (by decide)).1

/-! ## Claim C10: flatten dereferences a missing root-device name -/

/-- C10: on an image whose root-device-name lookup yields no name, a
returned mapping with a device name makes
`flattenAutoscalingBlockDeviceMappings` dereference the nil name and
panic, while `readBlockDevicesFromLaunchConfiguration` and the Create
path substitute the empty string in the same situation and proceed. -/
theorem flatten_nil_root_panics_where_read_substitutes_blank :
    (flattenAutoscalingBlockDeviceMappings
        [{ deviceName := some "/dev/sda1", virtualName := none, noDevice := none, ebs := none }]
        "ami-1" connNoRoot =
      (.panicked nilDereferenceMsg, [.describeImages "ami-1"])) ∧
    (readBlockDevicesFromLaunchConfiguration "ami-1" connNoRoot
        [{ deviceName := some "/dev/sda1", virtualName := none, noDevice := none, ebs := none }] =
      (.ok (some
        { ebs := [{ delete_on_termination := none, volume_size := none, volume_type := none
                    iops := none, encrypted := none, device_name := some "/dev/sda1"
                    virtual_name := none, snapshot_id := none }]
          ephemeral := []
          root := none }),
       [.describeImages "ami-1"])) ∧
    (buildLegacyBlockDevices
        { baseCfg with ebs_block_device :=
            [{ device_name := "/dev/sdx", delete_on_termination := true, iops := 0
               snapshot_id := "", volume_size := 0, volume_type := "", encrypted := false }] }
        connNoRoot =
      (.ok [some
        { deviceName := some "/dev/sdx", virtualName := none, noDevice := none
          ebs := some { deleteOnTermination := some true, snapshotId := none
                        encrypted := none, volumeSize := none, volumeType := none
                        iops := none } }],
       [.describeImages "ami-1"])) := by
  refine ⟨rfl, rfl, rfl⟩

/-! ## Claim C1: root device declared through ebs_block_device -/

/-- The `ebs_block_device` loop aborts with the root-device error as
soon as some entry carries the root-device name. -/
theorem legacyEbsLoop_error_of_mem (rootEff : String) :
    ∀ l : List EbsBlockDeviceConfig, (∃ bd ∈ l, bd.device_name = rootEff) →
      legacyEbsLoop rootEff l = .error (.rootDeviceDeclaredAsEbs rootEff)
  | [], h => by simp at h
  | bd :: rest, h => by
      by_cases hd : (bd.device_name == rootEff) = true
      · simp [legacyEbsLoop, hd]
      · obtain ⟨b, hb, hname⟩ := h
        rcases List.mem_cons.mp hb with rfl | hmem
        · exact absurd (beq_iff_eq.mpr hname) hd
        · have hrec := legacyEbsLoop_error_of_mem rootEff rest ⟨b, hmem, hname⟩
          simp [legacyEbsLoop, hd, hrec]

/-- C1 counterexample: the rejection of a root device declared through
`ebs_block_device` is not issued before any remote call — the
root-device name needed by the check is itself fetched remotely, so the
trace at the moment of rejection already contains the DescribeImages
metadata call. -/
theorem root_device_rejection_not_before_all_remote_calls :
    resourceAwsLaunchConfigurationCreate
        { baseCfg with ebs_block_device :=
            [{ device_name := "/dev/sda1", delete_on_termination := true, iops := 0
               snapshot_id := "", volume_size := 0, volume_type := "", encrypted := false }] }
        (connRoot "/dev/sda1") 3 3 =
      (.err (.rootDeviceDeclaredAsEbs "/dev/sda1"), [.describeImages "ami-1"]) ∧
    ([RemoteCall.describeImages "ami-1"] : List RemoteCall) ≠ [] :=
  ⟨rfl, by decide⟩

/-- C1 (amended): whenever, with the consolidated field unused, the
root-device-name lookup succeeds and some `ebs_block_device` entry
declares the (blank-substituted) root-device name, Create rejects the
configuration with the root-device error, and the only remote call
issued is the root-device-name metadata lookup — in particular the
creation request is never issued. -/
theorem root_device_in_ebs_block_device_rejected (cfg : LaunchConfig)
    (conn : AWSConn) (cb rb : Nat) (r : Option String)
    (hbdm : cfg.block_device_mapping = [])
    (hroot : conn.rootDeviceName cfg.image_id = .ok r)
    (hdecl : ∃ bd ∈ cfg.ebs_block_device, bd.device_name = r.getD "") :
    resourceAwsLaunchConfigurationCreate cfg conn cb rb =
      (.err (.rootDeviceDeclaredAsEbs (r.getD "")),
        [.describeImages cfg.image_id]) := by
  have hloop := legacyEbsLoop_error_of_mem (r.getD "") cfg.ebs_block_device hdecl
  simp [resourceAwsLaunchConfigurationCreate, buildBlockDevices, hbdm,
    buildLegacyBlockDevices, fetchRootDeviceName, hroot, hloop]

/-- Witness for the amended C1 theorem at a concrete configuration. -/
theorem root_device_in_ebs_block_device_rejected_witness :
    resourceAwsLaunchConfigurationCreate
        { baseCfg with ebs_block_device :=
            [{ device_name := "/dev/xvda", delete_on_termination := true, iops := 0
               snapshot_id := "", volume_size := 0, volume_type := "", encrypted := false }] }
        (connRoot "/dev/xvda") 2 2 =
      (.err (.rootDeviceDeclaredAsEbs "/dev/xvda"), [.describeImages "ami-1"]) :=
  root_device_in_ebs_block_device_rejected _ _ 2 2 (some "/dev/xvda") rfl rfl
    ⟨{ device_name := "/dev/xvda", delete_on_termination := true, iops := 0
       snapshot_id := "", volume_size := 0, volume_type := "", encrypted := false },
     by decide, rfl⟩

/-! ## Claim C9: identifier mismatch on Read is a hard failure -/

/-- C9: when the describe response is non-empty but its first record
carries a name different from the requested identifier, Read fails with
the unable-to-find error after exactly one remote call (no retry), and
the outcome is an error — not the removed outcome that clears the
local record. -/
theorem identifier_mismatch_hard_failure (id : String) (conn : AWSConn)
    (attempt : Nat) (lc : LaunchConfiguration) (rest : List LaunchConfiguration)
    (n : String)
    (hresp : conn.describeLaunchConfigurations attempt id = .ok (lc :: rest))
    (hname : lc.launchConfigurationName = some n)
    (hne : n ≠ id) :
    resourceAwsLaunchConfigurationRead id conn attempt =
      (.err (.unableToFindLaunchConfiguration (lc :: rest)),
        [.describeLaunchConfigurations id]) := by
  simp [resourceAwsLaunchConfigurationRead, readLaunchConfigurationResult,
    hresp, hname, hne]

/-- A describe response naming a different launch configuration. -/
def mismatchedLC : LaunchConfiguration :=
  { launchConfigurationName := some "other"
    keyName := none
    imageId := some "ami-1"
    instanceType := some "t2.micro"
    iamInstanceProfile := none
    ebsOptimized := none
    spotPrice := none
    instanceMonitoring := some (some true)
    securityGroups := []
    associatePublicIpAddress := none
    classicLinkVPCId := none
    classicLinkVPCSecurityGroups := []
    blockDeviceMappings := [] }

/-- Oracle whose describe endpoint returns `mismatchedLC`. -/
def connMismatch : AWSConn :=
  { rootDeviceName := fun _ => .ok (some "/dev/sda1")
    createLaunchConfiguration := fun _ _ => .ok ()
    describeLaunchConfigurations := fun _ _ => .ok [mismatchedLC]
    deleteLaunchConfiguration := fun _ => .ok () }

/-- Witness for C9 at a concrete mismatching describe response. -/
theorem identifier_mismatch_hard_failure_witness :
    resourceAwsLaunchConfigurationRead "lc0" connMismatch 0 =
      (.err (.unableToFindLaunchConfiguration [mismatchedLC]),
        [.describeLaunchConfigurations "lc0"]) :=
  identifier_mismatch_hard_failure "lc0" connMismatch 0 mismatchedLC [] "other"
    rfl rfl (by decide)

/-! ## Claim C6: classification of returned block devices -/

/-- Left-biased choice on options (the overwrite discipline of the
root slot: the later candidate is the first argument). -/
def optOr : Option α → Option α → Option α
  | some a, _ => some a
  | none, b => b

theorem optOr_none_right (a : Option α) : optOr a none = a := by
  cases a <;> rfl

theorem optOr_assoc (a b c : Option α) :
    optOr (optOr a b) c = optOr a (optOr b c) := by
  cases a <;> cases b <;> rfl

theorem optOr_some_left (a : α) (b : Option α) : optOr (some a) b = some a := rfl

theorem getLast?_cons_eq_optOr (x : α) (xs : List α) :
    (x :: xs).getLast? = optOr xs.getLast? (some x) := by
  induction xs generalizing x with
  | nil => rfl
  | cons y ys ih =>
      rw [List.getLast?_cons_cons, ih y, optOr_assoc]
      rfl

/-- A non-root entry without a virtual name (destined for the EBS
list). -/
def nonRootEbsPred (rootEff : String) (b : BlockDeviceMapping) : Bool :=
  !isRootEntry rootEff b && !b.virtualName.isSome

/-- A non-root entry with a virtual name (destined for the ephemeral
list). -/
def nonRootEphemeralPred (rootEff : String) (b : BlockDeviceMapping) : Bool :=
  !isRootEntry rootEff b && b.virtualName.isSome

/-- Closed form of the classification loop: the EBS and ephemeral lists
collect exactly the non-root entries without and with a virtual name,
in order, and the root slot holds the last root-matching entry. -/
theorem readBlockDevicesLoop_characterization (rootEff : String)
    (l : List BlockDeviceMapping) :
    ∀ acc, readBlockDevicesLoop rootEff acc l =
      { ebs := acc.ebs ++ (l.filter (nonRootEbsPred rootEff)).map launchConfigBdEbs
        ephemeral := acc.ephemeral ++
          (l.filter (nonRootEphemeralPred rootEff)).map launchConfigBdEphemeral
        root := optOr
          ((l.filter (isRootEntry rootEff)).map launchConfigBdCommon).getLast?
          acc.root } := by
  induction l with
  | nil => intro acc; simp [readBlockDevicesLoop, optOr]
  | cons b rest ih =>
      intro acc
      by_cases hr : isRootEntry rootEff b
      · simp only [readBlockDevicesLoop, hr, if_true, ih]
        simp [nonRootEbsPred, nonRootEphemeralPred, List.filter_cons, hr,
          getLast?_cons_eq_optOr, optOr_assoc, optOr_some_left]
      · by_cases hv : b.virtualName.isSome
        · simp only [readBlockDevicesLoop, hr, hv, if_false, if_true, ih]
          simp [nonRootEbsPred, nonRootEphemeralPred, List.filter_cons, hr, hv,
            List.append_assoc]
        · simp only [readBlockDevicesLoop, hr, hv, if_false, ih]
          simp [nonRootEbsPred, nonRootEphemeralPred, List.filter_cons, hr, hv,
            List.append_assoc]

/-- C6: for a non-empty list of returned mappings and a successful
root-device-name lookup, every entry whose device name equals the
(blank-substituted) root-device name goes to the root slot (the last
one wins) and appears in neither the EBS nor the ephemeral list, while
every other entry is placed on the ephemeral list exactly when it has a
virtual name and on the EBS list otherwise. -/
theorem read_block_devices_root_classification (ami : String) (conn : AWSConn)
    (mappings : List BlockDeviceMapping) (r : Option String)
    (hne : mappings ≠ [])
    (hroot : conn.rootDeviceName ami = .ok r) :
    readBlockDevicesFromLaunchConfiguration ami conn mappings =
      (.ok (some
        { ebs := (mappings.filter (nonRootEbsPred (r.getD ""))).map launchConfigBdEbs
          ephemeral := (mappings.filter
            (nonRootEphemeralPred (r.getD ""))).map launchConfigBdEphemeral
          root := ((mappings.filter
            (isRootEntry (r.getD ""))).map launchConfigBdCommon).getLast? }),
       [.describeImages ami]) := by
  cases mappings with
  | nil => exact absurd rfl hne
  | cons b rest =>
      simp [readBlockDevicesFromLaunchConfiguration, fetchRootDeviceName, hroot,
        readBlockDevicesLoop_characterization, optOr_none_right]

/-- Witness for C6 on a three-entry mapping list containing a root
entry, an EBS entry and an ephemeral entry. -/
theorem read_block_devices_root_classification_witness :
    readBlockDevicesFromLaunchConfiguration "ami-1" (connRoot "/dev/sda1")
        [{ deviceName := some "/dev/sda1", virtualName := none, noDevice := none, ebs := none },
         { deviceName := some "/dev/sdb", virtualName := none, noDevice := none, ebs := none },
         { deviceName := some "/dev/sdc", virtualName := some "ephemeral0", noDevice := none, ebs := none }] =
      (.ok (some
        { ebs := ([{ deviceName := some "/dev/sda1", virtualName := none, noDevice := none, ebs := none },
                    { deviceName := some "/dev/sdb", virtualName := none, noDevice := none, ebs := none },
                    { deviceName := some "/dev/sdc", virtualName := some "ephemeral0", noDevice := none, ebs := none }].filter
            (nonRootEbsPred ((some "/dev/sda1").getD ""))).map launchConfigBdEbs
          ephemeral := ([{ deviceName := some "/dev/sda1", virtualName := none, noDevice := none, ebs := none },
                         { deviceName := some "/dev/sdb", virtualName := none, noDevice := none, ebs := none },
                         { deviceName := some "/dev/sdc", virtualName := some "ephemeral0", noDevice := none, ebs := none }].filter
            (nonRootEphemeralPred ((some "/dev/sda1").getD ""))).map launchConfigBdEphemeral
          root := (([{ deviceName := some "/dev/sda1", virtualName := none, noDevice := none, ebs := none },
                      { deviceName := some "/dev/sdb", virtualName := none, noDevice := none, ebs := none },
                      { deviceName := some "/dev/sdc", virtualName := some "ephemeral0", noDevice := none, ebs := none }].filter
            (isRootEntry ((some "/dev/sda1").getD ""))).map launchConfigBdCommon).getLast? }),
       [.describeImages "ami-1"]) :=
  read_block_devices_root_classification "ami-1" (connRoot "/dev/sda1")
    [{ deviceName := some "/dev/sda1", virtualName := none, noDevice := none, ebs := none },
     { deviceName := some "/dev/sdb", virtualName := none, noDevice := none, ebs := none },
     { deviceName := some "/dev/sdc", virtualName := some "ephemeral0", noDevice := none, ebs := none }]
    (some "/dev/sda1") (by decide) rfl

/-! ## Claim C5: retry classification around the create call -/

/-- The retry loop around the create call makes at most `fuel + 1`
attempts: the bounded window never allows unbounded retrying. -/
theorem createRetryLoop_attempts_le (conn : AWSConn)
    (opts : CreateLaunchConfigurationInput) :
    ∀ fuel i, (createRetryLoop conn opts fuel i).2 ≤ i + fuel + 1 := by
  intro fuel
  induction fuel with
  | zero =>
      intro i
      cases h : conn.createLaunchConfiguration i opts with
      | ok u => simp [createRetryLoop, h]
      | error e =>
          by_cases hc : createRetryableError e = true <;>
            simp [createRetryLoop, h, hc]
  | succ f ih =>
      intro i
      cases h : conn.createLaunchConfiguration i opts with
      | ok u => simp [createRetryLoop, h]
      | error e =>
          by_cases hc : createRetryableError e = true
          · have := ih (i + 1)
            simp only [createRetryLoop, h, hc, if_true]
            omega
          · simp only [Bool.not_eq_true] at hc
            simp [createRetryLoop, h, hc]

/-- Whatever its budget, the read-back loop always issues a describe
call first: its trace starts with one. -/
theorem readBackLoop_starts_with_describe (id : String) (conn : AWSConn) :
    ∀ fuel attempt, ∃ t, (readBackLoop id conn fuel attempt).2 =
      RemoteCall.describeLaunchConfigurations id :: t := by
  intro fuel attempt
  cases fuel with
  | zero =>
      rcases hy : readLaunchConfigurationResult id conn
          (conn.describeLaunchConfigurations attempt id) with ⟨o, cs⟩
      cases o with
      | ok st =>
          exact ⟨cs, by simp [readBackLoop, resourceAwsLaunchConfigurationRead, hy]⟩
      | removed =>
          exact ⟨cs, by simp [readBackLoop, resourceAwsLaunchConfigurationRead, hy]⟩
      | err e =>
          exact ⟨cs, by simp [readBackLoop, resourceAwsLaunchConfigurationRead, hy]⟩
      | panicked m =>
          exact ⟨cs, by simp [readBackLoop, resourceAwsLaunchConfigurationRead, hy]⟩
  | succ f =>
      rcases hy : readLaunchConfigurationResult id conn
          (conn.describeLaunchConfigurations attempt id) with ⟨o, cs⟩
      cases o with
      | ok st =>
          exact ⟨cs, by simp [readBackLoop, resourceAwsLaunchConfigurationRead, hy]⟩
      | removed =>
          exact ⟨cs, by simp [readBackLoop, resourceAwsLaunchConfigurationRead, hy]⟩
      | err e =>
          exact ⟨cs ++ (readBackLoop id conn f (attempt + 1)).2,
            by simp [readBackLoop, resourceAwsLaunchConfigurationRead, hy]⟩
      | panicked m =>
          exact ⟨cs, by simp [readBackLoop, resourceAwsLaunchConfigurationRead, hy]⟩

/-- C5: an error of the create call is treated as retryable exactly
when it matches one of the two validation-error signatures; any other
error aborts the loop at its very attempt and the Create operation
surfaces it wrapped with the creating-launch-configuration context; a
retryable error merely consumes one unit of the bounded budget; the
loop makes at most budget + 1 attempts; and a successful create is
followed by the read-back, whose first remote call is a describe. -/
theorem create_retry_only_two_signatures (conn : AWSConn) :
    (∀ e, createRetryableError e = true ↔
      (isAWSErr e "ValidationError" "Invalid IamInstanceProfile" = true ∨
       isAWSErr e "ValidationError" "You are not authorized to perform this operation" = true)) ∧
    (∀ opts fuel i e, conn.createLaunchConfiguration i opts = .error e →
      createRetryableError e = false →
      createRetryLoop conn opts fuel i = (.error (.aws e), i + 1)) ∧
    (∀ opts fuel i e, conn.createLaunchConfiguration i opts = .error e →
      createRetryableError e = true →
      createRetryLoop conn opts (fuel + 1) i = createRetryLoop conn opts fuel (i + 1)) ∧
    (∀ opts fuel i, (createRetryLoop conn opts fuel i).2 ≤ i + fuel + 1) ∧
    (∀ cfg cb rb bds cs, buildBlockDevices cfg conn = (.ok bds, cs) →
      (∀ e n, createRetryLoop conn (mkCreateOpts cfg (resolveLcName cfg) bds) cb 0 =
          (.error e, n) →
        resourceAwsLaunchConfigurationCreate cfg conn cb rb =
          (.err (.creatingLaunchConfiguration e),
            cs ++ List.replicate n
              (RemoteCall.createLaunchConfiguration
                (mkCreateOpts cfg (resolveLcName cfg) bds)))) ∧
      (∀ n, createRetryLoop conn (mkCreateOpts cfg (resolveLcName cfg) bds) cb 0 =
          (.ok (), n) →
        ∃ t, (resourceAwsLaunchConfigurationCreate cfg conn cb rb).2 =
          cs ++ List.replicate n
            (RemoteCall.createLaunchConfiguration
              (mkCreateOpts cfg (resolveLcName cfg) bds)) ++
            RemoteCall.describeLaunchConfigurations (resolveLcName cfg) :: t)) := by
  refine ⟨?_, ?_, ?_, createRetryLoop_attempts_le conn, ?_⟩
  · intro e
    simp [createRetryableError]
  · intro opts fuel i e he hc
    cases fuel with
    | zero => simp [createRetryLoop, he, hc]
    | succ f => simp [createRetryLoop, he, hc]
  · intro opts fuel i e he hc
    simp [createRetryLoop, he, hc]
  · intro cfg cb rb bds cs hb
    constructor
    · intro e n hloop
      simp [resourceAwsLaunchConfigurationCreate, hb, hloop]
    · intro n hloop
      obtain ⟨t, ht⟩ :=
        readBackLoop_starts_with_describe (resolveLcName cfg) conn rb 0
      exact ⟨t, by simp [resourceAwsLaunchConfigurationCreate, hb, hloop, ht]⟩

/-- Witness for C5: a create failure outside the two signatures aborts
on the first attempt with the error kept. -/
theorem create_retry_only_two_signatures_witness :
    createRetryLoop (connCreateErr { code := "Internal", message := "boom" })
        (mkCreateOpts baseCfg "lc0" none) 5 0 =
      (.error (.aws { code := "Internal", message := "boom" }), 1) :=
  (create_retry_only_two_signatures
      (connCreateErr { code := "Internal", message := "boom" })).2.1
    (mkCreateOpts baseCfg "lc0" none) 5 0 { code := "Internal", message := "boom" }
    rfl (by decide)

end LaunchConfigurationResource
